import Mathlib

/-!
Verification development for the realtime voice e-store orchestrator.

The definitions below are a shallow embedding of the Python source:
`src/backend/tools.py` (catalog/cart/order tools), `src/backend/voice_client.py`
(upstream session client and tool dispatcher), and `src/main.py`
(client-facing relay and session registry).  Python numbers are modelled as
exact rationals; none of the verified claims depends on floating-point
rounding.  Fallible Python code (code that may raise) is modelled with
`Except String`, the error string standing for the raised exception.
-/

namespace EStore

/-- Model of a Python value as stored in dict-shaped cart lines.  Only the
shapes the cart code distinguishes are needed: numbers, strings, dicts and
None. -/
inductive PyVal where
  | num (q : ℚ)
  | str (s : String)
  | pydict (fields : List (String × PyVal))
  | pynone

/-- Python `v == s` for a string literal `s` on the right-hand side: true only
when `v` is the equal string (equality between a string and a dict, number or
None is False in Python). -/
def PyVal.eqStr : PyVal → String → Bool
  | .str t, s => t == s
  | _, _ => false

/-- Python `d.get(key, default)` on a dict: the first binding wins (dict keys
are unique, so an association list with the first binding taken is a faithful
model). -/
def pyGet (fields : List (String × PyVal)) (key : String) (default : PyVal) : PyVal :=
  match fields.lookup key with
  | some v => v
  | none => default

/-- Product record as built by `tool_add_to_cart` / `tool_search_products`
from a Salesforce Product2 row (src/backend/tools.py lines 331-342). -/
structure ProductD where
  id : String
  name : String
  price : ℚ
  description : String
  color : String
  size : String
  product_code : String
  pricebook_entry_id : String
  category : String
  image_url : String
  deriving DecidableEq, Repr

/-- The Python dict `tool_add_to_cart` builds for a fetched product
(src/backend/tools.py lines 331-342). -/
def productToPy (p : ProductD) : PyVal :=
  .pydict [("id", .str p.id), ("name", .str p.name), ("price", .num p.price),
    ("description", .str p.description), ("color", .str p.color),
    ("size", .str p.size), ("product_code", .str p.product_code),
    ("pricebook_entry_id", .str p.pricebook_entry_id),
    ("category", .str p.category), ("image_url", .str p.image_url)]

/-- One entry of a session cart.  The source tolerates two shapes for the same
concept: a plain dict (web format) and the `CartItem` dataclass
(src/backend/state.py).  `otherObj` stands for any other Python object, on
which the attribute accesses of the cart code raise. -/
inductive CItem where
  | dictLine (fields : List (String × PyVal))
  | cartItem (product : ProductD) (quantity : ℤ)
  | otherObj

/-- Mirrors the body of the per-item try block of `calculate_cart_total`
(src/backend/tools.py lines 393-403).  An `error` stands for the exception
Python raises there: attribute access on a non-dict `product` value, attribute
access on a non-CartItem object, or arithmetic involving a non-numeric price
or quantity (for a string price and an integer quantity Python first builds a
repeated string and then raises on the addition to the running total; the
observable contribution is 0 either way, which is what the model records). -/
def itemTotal : CItem → Except String ℚ
  | .dictLine fields =>
    match pyGet fields "product" (.pydict []) with
    | .pydict pf =>
      match pyGet pf "price" (.num 0), pyGet fields "quantity" (.num 0) with
      | .num p, .num q => .ok (p * q)
      | _, _ => .error "TypeError"
    | _ => .error "AttributeError"
  | .cartItem p q => .ok (p.price * (q : ℚ))
  | .otherObj => .error "AttributeError"

/-- `calculate_cart_total` (src/backend/tools.py lines 389-408): fold over the
cart adding each item total, skipping any item whose computation raises (the
`except ... continue` of the source). -/
def calculate_cart_total (cart : List CItem) : ℚ :=
  cart.foldl (fun total item =>
    match itemTotal item with
    | .ok v => total + v
    | .error _ => total) 0

/-- Specification-side contribution of one cart line, written from the claim:
price times quantity, a missing price or quantity in a dict-shaped line read
as 0, and any malformed line counted as 0. -/
def lineContribution : CItem → ℚ
  | .dictLine fields =>
    match pyGet fields "product" (.pydict []), pyGet fields "quantity" (.num 0) with
    | .pydict pf, .num q =>
      match pyGet pf "price" (.num 0) with
      | .num p => p * q
      | _ => 0
    | _, _ => 0
  | .cartItem p q => p.price * (q : ℚ)
  | .otherObj => 0

theorem itemTotal_catch (it : CItem) (t : ℚ) :
    (match itemTotal it with
      | .ok v => t + v
      | .error _ => t) = t + lineContribution it := by
  cases it with
  | dictLine fields =>
    simp only [itemTotal, lineContribution]
    cases hp : pyGet fields "product" (.pydict []) with
    | pydict pf =>
      cases hpr : pyGet pf "price" (.num 0) <;>
        cases hq : pyGet fields "quantity" (.num 0) <;> simp [hpr, hq]
    | num q => simp
    | str s => simp
    | pynone => simp
  | cartItem p q => simp [itemTotal, lineContribution]
  | otherObj => simp [itemTotal, lineContribution]

theorem calc_total_foldl (cart : List CItem) (a : ℚ) :
    cart.foldl (fun total item =>
      match itemTotal item with
      | .ok v => total + v
      | .error _ => total) a = a + (cart.map lineContribution).sum := by
  induction cart generalizing a with
  | nil => simp
  | cons it rest ih =>
    rw [List.foldl_cons, ih]
    show (match itemTotal it with
      | .ok v => a + v
      | .error _ => a) + (rest.map lineContribution).sum = _
    rw [itemTotal_catch]
    simp [add_assoc]

/-- C10: `calculate_cart_total` is total on every cart mixing dict-shaped and
CartItem-shaped lines (the model converts every exception path of the source
into a skipped item, mirroring the per-item try/except); it returns the sum
over lines of price times quantity, with a missing price or quantity in a
dict-shaped line counted as 0, and a malformed line contributes 0. -/
theorem C10_cart_total_is_sum :
    (∀ cart : List CItem, calculate_cart_total cart = (cart.map lineContribution).sum)
    ∧ (∀ p q, lineContribution (.cartItem p q) = p.price * (q : ℚ))
    ∧ (∀ q, lineContribution (.dictLine [("product", .pydict []), ("quantity", .num q)]) = 0)
    ∧ (∀ p, lineContribution (.dictLine [("product", .pydict [("price", .num p)])]) = 0)
    ∧ (∀ s fields, lineContribution (.dictLine (("product", PyVal.str s) :: fields)) = 0)
    ∧ lineContribution .otherObj = 0 := by
  refine ⟨fun cart => ?_, fun p q => rfl, fun q => ?_, fun p => ?_, fun s fields => ?_, rfl⟩
  · simpa using calc_total_foldl cart 0
  · simp [lineContribution, pyGet, List.lookup]
  · simp [lineContribution, pyGet, List.lookup]
  · simp [lineContribution, pyGet, List.lookup]

/-- Order row fields read by `tool_lookup_order` (src/backend/tools.py
486-514); every field is read with `.get`, so each may be absent. -/
structure OrderRec where
  order_number : Option String
  status : Option String
  effective_date : Option String
  total_amount : Option ℚ
  deriving DecidableEq, Repr

/-- Result dict shape shared by the tool implementations and the dispatcher:
the union of the keys the source ever puts into a tool result, each optional
because each branch only adds the keys it mentions. -/
structure ToolResult where
  success : Bool
  message : Option String
  products : Option (List ProductD)
  count : Option Nat
  cart_total : Option ℚ
  order_number : Option String
  order_id : Option String
  total_amount : Option ℚ
  status : Option String
  effective_date : Option String
  orders : Option (List OrderRec)
  items_count : Option Nat
  deriving DecidableEq, Repr

/-- A result dict with no keys set; branches of the source add what they
mention on top of this. -/
def TRbase : ToolResult :=
  ⟨false, none, none, none, none, none, none, none, none, none, none, none⟩

/-- Reading of the product id of one existing cart line by the duplicate check of
`tool_add_to_cart` (src/backend/tools.py lines 345-350).  An error stands for
the exception Python raises when the product value of a dict-shaped line is not a
dict, or when the line is neither a dict nor a CartItem. -/
def readLineId : CItem → Except String PyVal
  | .dictLine fields =>
    match pyGet fields "product" (.pydict []) with
    | .pydict pf => .ok (pyGet pf "id" .pynone)
    | _ => .error "AttributeError"
  | .cartItem p _ => .ok (.str p.id)
  | .otherObj => .error "AttributeError"

/-- Python dict assignment `d[key] = v`: replace the unique binding when the
key is present, append it otherwise. -/
def setField : List (String × PyVal) → String → PyVal → List (String × PyVal)
  | [], k, v => [(k, v)]
  | (a, b) :: rest, k, v =>
    if a == k then (k, v) :: rest else (a, b) :: setField rest k v

/-- Quantity bump of the matched line (src/backend/tools.py lines 353-357):
Python `item["quantity"] += quantity` raises KeyError when the key is missing
and TypeError when the stored value is not a number; `item.quantity` on a
CartItem always succeeds. -/
def bumpQty (q : ℤ) : CItem → Except String CItem
  | .dictLine fields =>
    match fields.lookup "quantity" with
    | some (.num q0) => .ok (.dictLine (setField fields "quantity" (.num (q0 + (q : ℚ)))))
    | some _ => .error "TypeError"
    | none => .error "KeyError"
  | .cartItem p q0 => .ok (.cartItem p (q0 + q))
  | .otherObj => .error "AttributeError"

/-- The duplicate-product loop of `tool_add_to_cart` (src/backend/tools.py
lines 344-366): the updated cart when a line with the fetched product id is
found, `none` when the loop completes without a match, and an error when
inspecting or bumping a line raises (in which case the source leaves the cart
untouched, since the raise happens before any assignment). -/
def scanCart (pid : String) (q : ℤ) : List CItem → Except String (Option (List CItem))
  | [] => .ok none
  | it :: rest =>
    match readLineId it with
    | .error e => .error e
    | .ok v =>
      if v.eqStr pid then
        match bumpQty q it with
        | .error e => .error e
        | .ok it2 => .ok (some (it2 :: rest))
      else
        match scanCart pid q rest with
        | .error e => .error e
        | .ok none => .ok none
        | .ok (some rest2) => .ok (some (it :: rest2))

/-- `tool_add_to_cart` (src/backend/tools.py lines 308-386).  The Salesforce
product query is abstracted as its outcome for a given product name: an error
stands for `sf.query` raising, `ok none` for an empty record list ("Product
not found"), `ok (some p)` for the fetched product row.  Returns the result
dict together with the cart after the call (the source mutates the Python
list in place). -/
def tool_add_to_cart (gw : String → Except String (Option ProductD))
    (product_name : String) (quantity : ℤ) (cart : List CItem) :
    ToolResult × List CItem :=
  match gw product_name with
  | .error e =>
    ({ TRbase with message := some ("Error adding to cart: " ++ e) }, cart)
  | .ok none =>
    ({ TRbase with message := some "Product not found" }, cart)
  | .ok (some p) =>
    match scanCart p.id quantity cart with
    | .error e =>
      ({ TRbase with message := some ("Error adding to cart: " ++ e) }, cart)
    | .ok (some cart2) =>
      ({ TRbase with
          success := true
          message := some ("Updated " ++ p.name ++ " quantity in cart")
          cart_total := some (calculate_cart_total cart2) }, cart2)
    | .ok none =>
      let cart2 := cart ++
        [CItem.dictLine [("product", productToPy p), ("quantity", .num (quantity : ℚ))]]
      ({ TRbase with
          success := true
          message := some ("Added " ++ toString quantity ++ "x " ++ p.name ++ " to cart")
          cart_total := some (calculate_cart_total cart2) }, cart2)

/-- The product ids of a cart, in order, as the duplicate check reads them:
lines whose id is unreadable or not a string contribute nothing (such a line
can never match a fetched product id). -/
def cartIds (cart : List CItem) : List String :=
  cart.filterMap fun it =>
    match readLineId it with
    | .ok (.str s) => some s
    | _ => none

/-- Invariant of the claim: at most one cart line per distinct product id. -/
def IdsNodup (cart : List CItem) : Prop := (cartIds cart).Nodup

theorem lookup_setField_ne (l : List (String × PyVal)) (k k2 : String) (v : PyVal)
    (h : (k2 == k) = false) : (setField l k v).lookup k2 = l.lookup k2 := by
  induction l with
  | nil => simp [setField, List.lookup, h]
  | cons ab rest ih =>
    obtain ⟨a, b⟩ := ab
    simp only [setField]
    by_cases ha : (a == k) = true
    · rw [if_pos ha]
      have hak : a = k := by simpa using ha
      subst hak
      simp [List.lookup, h]
    · rw [if_neg ha]
      by_cases hk2 : (k2 == a) = true
      · simp [List.lookup, hk2]
      · simp [List.lookup, hk2, ih]

theorem readLineId_bumpQty (q : ℤ) (it it2 : CItem) (h : bumpQty q it = .ok it2) :
    readLineId it2 = readLineId it := by
  cases it with
  | dictLine fields =>
    simp only [bumpQty] at h
    cases hq : fields.lookup "quantity" with
    | none => simp [hq] at h
    | some v =>
      cases v <;> simp only [hq] at h <;> simp at h
      case num q0 =>
        subst h
        simp only [readLineId, pyGet, lookup_setField_ne fields "quantity" "product" _ (by decide)]
  | cartItem p q0 =>
    simp only [bumpQty] at h
    cases h
    rfl
  | otherObj => exact absurd h (by simp [bumpQty])

theorem cartIds_cons (it : CItem) (rest : List CItem) :
    cartIds (it :: rest)
      = (match readLineId it with
          | .ok (.str s) => [s]
          | _ => []) ++ cartIds rest := by
  simp only [cartIds, List.filterMap_cons]
  cases h : readLineId it with
  | error e => simp
  | ok v => cases v <;> simp

theorem cartIds_scanCart_some (pid : String) (q : ℤ) (cart cart2 : List CItem)
    (h : scanCart pid q cart = .ok (some cart2)) : cartIds cart2 = cartIds cart := by
  induction cart generalizing cart2 with
  | nil => exact absurd h (by simp [scanCart])
  | cons it rest ih =>
    simp only [scanCart] at h
    cases hid : readLineId it with
    | error e => simp [hid] at h
    | ok v =>
      simp only [hid] at h
      by_cases hm : v.eqStr pid = true
      · rw [if_pos hm] at h
        cases hb : bumpQty q it with
        | error e => simp [hb] at h
        | ok it2 =>
          simp only [hb, Except.ok.injEq, Option.some.injEq] at h
          subst h
          rw [cartIds_cons, cartIds_cons, readLineId_bumpQty q it it2 hb]
      · rw [if_neg hm] at h
        cases hs : scanCart pid q rest with
        | error e => simp [hs] at h
        | ok o =>
          cases o with
          | none => simp [hs] at h
          | some rest2 =>
            simp only [hs, Except.ok.injEq, Option.some.injEq] at h
            subst h
            rw [cartIds_cons, cartIds_cons, ih rest2 hs]

theorem cartIds_scanCart_none (pid : String) (q : ℤ) (cart : List CItem)
    (h : scanCart pid q cart = .ok none) : pid ∉ cartIds cart := by
  induction cart with
  | nil => simp [cartIds]
  | cons it rest ih =>
    simp only [scanCart] at h
    cases hid : readLineId it with
    | error e => simp [hid] at h
    | ok v =>
      simp only [hid] at h
      by_cases hm : v.eqStr pid = true
      · rw [if_pos hm] at h
        cases hb : bumpQty q it <;> simp [hb] at h
      · rw [if_neg hm] at h
        cases hs : scanCart pid q rest with
        | error e => simp [hs] at h
        | ok o =>
          cases o with
          | some rest2 => simp [hs] at h
          | none =>
            have hrest := ih hs
            rw [cartIds_cons, hid]
            cases v with
            | str s =>
              have hne : pid ≠ s := by
                intro he
                subst he
                simp [PyVal.eqStr] at hm
              simp [hrest, hne]
            | num qq => simpa using hrest
            | pydict pf => simpa using hrest
            | pynone => simpa using hrest

theorem cartIds_append_new (cart : List CItem) (p : ProductD) (qv : PyVal) :
    cartIds (cart ++ [CItem.dictLine [("product", productToPy p), ("quantity", qv)]])
      = cartIds cart ++ [p.id] := by
  simp [cartIds, List.filterMap_append, readLineId, pyGet, productToPy, List.lookup]

/-- C2: on every cart with at most one line per distinct product id,
`tool_add_to_cart` preserves that invariant (a duplicate addition, matched by
product id, bumps the quantity of that line instead of appending); and two
`add_to_cart` calls with the same product name and quantity 1, starting from
an empty cart, yield a single dict-shaped cart line with quantity 2. -/
theorem C2_add_to_cart_nodup :
    (∀ gw name q cart, IdsNodup cart → IdsNodup (tool_add_to_cart gw name q cart).2)
    ∧ (∀ (gw : String → Except String (Option ProductD)) name p,
        gw name = Except.ok (some p) →
        (tool_add_to_cart gw name 1 (tool_add_to_cart gw name 1 []).2).2
          = [CItem.dictLine [("product", productToPy p), ("quantity", PyVal.num 2)]]) := by
  constructor
  · intro gw name q cart hnd
    cases hgw : gw name with
    | error e => simpa [tool_add_to_cart, hgw] using hnd
    | ok o =>
      cases o with
      | none => simpa [tool_add_to_cart, hgw] using hnd
      | some p =>
        cases hs : scanCart p.id q cart with
        | error e => simpa only [tool_add_to_cart, hgw, hs] using hnd
        | ok o2 =>
          cases o2 with
          | some cart2 =>
            have heq := cartIds_scanCart_some p.id q cart cart2 hs
            simp only [tool_add_to_cart, hgw, hs]
            show IdsNodup cart2
            unfold IdsNodup at hnd ⊢
            rw [heq]
            exact hnd
          | none =>
            have hni := cartIds_scanCart_none p.id q cart hs
            simp only [tool_add_to_cart, hgw, hs]
            show IdsNodup (cart ++ [CItem.dictLine
              [("product", productToPy p), ("quantity", PyVal.num (q : ℚ))]])
            unfold IdsNodup at hnd ⊢
            rw [cartIds_append_new]
            exact List.Nodup.append hnd (List.nodup_singleton p.id)
              (by simpa [List.disjoint_singleton] using hni)
  · intro gw name p hgw
    have h1 : (tool_add_to_cart gw name 1 []).2
        = [CItem.dictLine [("product", productToPy p), ("quantity", PyVal.num 1)]] := by
      simp [tool_add_to_cart, hgw, scanCart]
    rw [h1]
    simp only [tool_add_to_cart, hgw]
    have hscan : scanCart p.id 1
        [CItem.dictLine [("product", productToPy p), ("quantity", PyVal.num 1)]]
        = .ok (some [CItem.dictLine [("product", productToPy p), ("quantity", PyVal.num 2)]]) := by
      simp [scanCart, readLineId, pyGet, productToPy, List.lookup, PyVal.eqStr, bumpQty, setField]
      norm_num
    rw [hscan]

/-- Customer dataclass (src/backend/state.py lines 28-32). -/
structure Customer where
  name : String
  email : String
  phone : String
  deriving DecidableEq, Repr

/-- The customer sub-dict of a place_salesforce_order argument payload: the
source reads name and email with indexing (raising KeyError when absent) and
phone with `.get` defaulting to the empty string. -/
structure CustomerArgs where
  name : Option String
  email : Option String
  phone : Option String
  deriving DecidableEq, Repr

/-- One entry of the place_salesforce_order items payload. -/
structure ItemReq where
  pricebook_entry_id : String
  quantity : ℤ
  deriving DecidableEq, Repr

/-- Argument payload of one tool call as the record of keys the dispatcher
reads; a `none` stands for the key being absent from the JSON dict. -/
structure ToolArgs where
  product_name : Option String
  quantity : Option ℤ
  customer : Option CustomerArgs
  items : Option (List ItemReq)
  checkout_source : Option String
  order_number : Option String
  email : Option String
  deriving DecidableEq, Repr

/-- The fields of the per-session agent state that handle_tool_call reads or
mutates (src/backend/voice_client.py lines 82-94, 226-270). -/
structure VState where
  cart : List CItem
  customer : Option Customer
  order_number : Option String

/-- Python truthiness of an optional string: None and the empty string are
falsy (the source guards with `if order_number:` and `elif email:`). -/
def pyTruthy : Option String → Bool
  | none => false
  | some s => s != ""

/-- Outcome of the Salesforce steps of tool_place_order collapsed to what the
function returns (src/backend/tools.py lines 412-477): the happy path with an
order number, the falsy create_order early return, or a raised exception
caught by the wrapping try. -/
inductive PlaceOutcome where
  | ok (order_number : String) (order_id : String) (total_amount : ℚ) (items_count : ℕ)
  | createFailed
  | raised (e : String)
  deriving DecidableEq, Repr

/-- tool_place_order (src/backend/tools.py lines 412-477): always returns a
result dict, never raising past its own try/except. -/
def tool_place_order (gw : PlaceOutcome) : ToolResult :=
  match gw with
  | .ok onum oid amt cnt =>
    { TRbase with
        success := true
        order_number := some onum
        order_id := some oid
        total_amount := some amt
        items_count := some cnt }
  | .createFailed => { TRbase with message := some "Failed to create order" }
  | .raised e => { TRbase with message := some ("Error placing order: " ++ e) }

/-- tool_lookup_order (src/backend/tools.py lines 480-519).  The two
Salesforce queries are abstracted as their outcomes; an error stands for the
query raising, which the wrapping try/except converts into a failure result.
When the order_number branch finds no records, control falls through to the
final "No orders found" return without consulting the email branch, exactly
as in the source (the email test is an `elif` on `order_number`). -/
def tool_lookup_order (byNum : Except String (List OrderRec))
    (byEmail : Except String (List OrderRec))
    (order_number : Option String) (email : Option String) : ToolResult :=
  if pyTruthy order_number then
    match byNum with
    | .error e => { TRbase with message := some ("Error looking up order: " ++ e) }
    | .ok [] => { TRbase with message := some "No orders found" }
    | .ok (o :: _) =>
      { TRbase with
          success := true
          order_number := o.order_number
          status := o.status
          effective_date := o.effective_date
          total_amount := some (o.total_amount.getD 0) }
  else if pyTruthy email then
    match byEmail with
    | .error e => { TRbase with message := some ("Error looking up order: " ++ e) }
    | .ok [] => { TRbase with message := some "No orders found" }
    | .ok (o :: os) =>
      { TRbase with
          success := true
          orders := some ((o :: os).map fun r =>
            { r with total_amount := some (r.total_amount.getD 0) }) }
  else
    { TRbase with message := some "No orders found" }

/-- Outcomes of the external calls one dispatcher invocation may make,
bundled: each field is what the corresponding Salesforce-backed helper would
observe during this call. -/
structure GwOutcome where
  search : Except String (List ProductD)
  addLookup : String → Except String (Option ProductD)
  place : PlaceOutcome
  byNum : Except String (List OrderRec)
  byEmail : Except String (List OrderRec)

/-- tool_search_products as observed by the dispatcher (src/backend/tools.py
lines 219-305): its own try/except turns any raised exception into an empty
product list, so the function never raises. -/
def tool_search_products (gw : Except String (List ProductD)) : List ProductD :=
  match gw with
  | .ok l => l
  | .error _ => []

/-- Failure result the outer try/except of handle_tool_call produces when an
argument key is missing (Python formats the message from the raised KeyError;
the exact exception text is not pinned by any claim). -/
def keyError (k : String) : ToolResult :=
  { TRbase with message := some ("Tool execution error: KeyError " ++ k) }

/-- RealtimeVoiceClient.handle_tool_call (src/backend/voice_client.py lines
211-296): dispatch on the tool name string, returning the result dict and the
session state after the call.  The function is total: an unknown name and
every gateway or argument fault produce a failure result instead of an
exception.  The place_salesforce_order branch stores the customer into the
state before invoking the gateway, exactly as the source does on lines
247-252; reading `tool_args["items"]` happens after that store, so a missing
items key leaves the customer already written. -/
def handle_tool_call (gw : GwOutcome) (name : String) (args : ToolArgs)
    (st : VState) : ToolResult × VState :=
  if name = "search_products" then
    let products := tool_search_products gw.search
    ({ TRbase with
        success := true
        products := some products
        count := some products.length }, st)
  else if name = "add_to_cart" then
    match args.product_name with
    | none => (keyError "product_name", st)
    | some pn =>
      let out := tool_add_to_cart gw.addLookup pn (args.quantity.getD 1) st.cart
      (out.1, { st with cart := out.2 })
  else if name = "place_salesforce_order" then
    match args.customer with
    | none => (keyError "customer", st)
    | some c =>
      match c.name, c.email with
      | some nm, some em =>
        let cust : Customer := ⟨nm, em, c.phone.getD ""⟩
        let st1 := { st with customer := some cust }
        match args.items with
        | none => (keyError "items", st1)
        | some _ =>
          let r := tool_place_order gw.place
          if r.success then
            (r, { st1 with order_number := r.order_number, cart := [] })
          else
            (r, st1)
      | none, _ => (keyError "name", st)
      | some _, none => (keyError "email", st)
  else if name = "lookup_order_status" then
    (tool_lookup_order gw.byNum gw.byEmail args.order_number args.email, st)
  else
    ({ TRbase with message := some ("Unknown tool: " ++ name) }, st)

/-- Gateway outcome fixture in which every external call fails or finds
nothing; used by closed counterexample and witness theorems. -/
def gwNeutral : GwOutcome := ⟨.ok [], fun _ => .ok none, .createFailed, .ok [], .ok []⟩

/-- Gateway outcome fixture whose order placement succeeds. -/
def gwPlaceOk : GwOutcome :=
  ⟨.ok [], fun _ => .ok none, .ok "00000103" "801A1" 45 1, .ok [], .ok []⟩

/-- Gateway outcome fixture whose product search raises. -/
def gwSearchDown : GwOutcome :=
  ⟨.error "Salesforce unreachable", fun _ => .ok none, .createFailed, .ok [], .ok []⟩

/-- An argument payload with no keys. -/
def argsEmpty : ToolArgs := ⟨none, none, none, none, none, none, none⟩

/-- A well-formed place_salesforce_order argument payload. -/
def argsOrder : ToolArgs :=
  ⟨none, none, some ⟨some "Ada Lovelace", some "ada@example.com", none⟩,
    some [⟨"01u1", 1⟩], none, none, none⟩

/-- A catalog product fixture. -/
def prodWallet : ProductD :=
  ⟨"01t1", "Bifold Wallet", 45, "", "Black", "", "WAL-1", "01u1", "Accessories", ""⟩

/-- A session state fixture with one cart line and no customer or order. -/
def stDemo : VState :=
  ⟨[CItem.dictLine [("product", productToPy prodWallet), ("quantity", PyVal.num 1)]],
    none, none⟩

/-- Gateway outcome fixture whose cart product query raises. -/
def gwAddDown : GwOutcome :=
  ⟨.ok [], fun _ => .error "timeout", .createFailed, .ok [], .ok []⟩

/-- Gateway outcome fixture whose order placement raises. -/
def gwPlaceDown : GwOutcome :=
  ⟨.ok [], fun _ => .ok none, .raised "timeout", .ok [], .ok []⟩

/-- Gateway outcome fixture whose order-status queries raise. -/
def gwLookupDown : GwOutcome :=
  ⟨.ok [], fun _ => .ok none, .createFailed, .error "timeout", .error "timeout"⟩

/-- An add_to_cart argument payload. -/
def argsAdd : ToolArgs :=
  ⟨some "Bifold Wallet", some 1, none, none, none, none, none⟩

/-- A lookup_order_status argument payload querying by order number. -/
def argsLookup : ToolArgs :=
  ⟨none, none, none, none, none, some "00000103", none⟩

/-- A lookup_order_status argument payload querying by email. -/
def argsLookupEmail : ToolArgs :=
  ⟨none, none, none, none, none, none, some "ada@example.com"⟩

/-- C1 fails on the code at this concrete input: the gateway call fails
(create_order returns a falsy result), yet the session customer changes from
none to the customer taken from the arguments, because handle_tool_call
stores the customer before invoking the gateway. -/
theorem C1_counterexample :
    (handle_tool_call gwNeutral "place_salesforce_order" argsOrder stDemo).1.success = false
    ∧ stDemo.customer = none
    ∧ (handle_tool_call gwNeutral "place_salesforce_order" argsOrder stDemo).2.customer
        = some ⟨"Ada Lovelace", "ada@example.com", ""⟩ := by
  exact ⟨rfl, rfl, rfl⟩

/-- C1 (amended): for a place_salesforce_order call with well-formed customer
and items arguments, a successful gateway call sets the customer and the
order number and clears the cart in the same dispatcher step; a failed
gateway call (falsy create_order or a raised exception) leaves order_number
and cart unchanged but still stores the customer, because the source writes
the customer into the state before invoking the gateway. -/
theorem C1_place_order_state_effects (gw : GwOutcome) (args : ToolArgs) (st : VState)
    (c : CustomerArgs) (nm em : String) (its : List ItemReq)
    (hc : args.customer = some c) (hnm : c.name = some nm) (hem : c.email = some em)
    (hit : args.items = some its) :
    (∀ onum oid amt cnt, gw.place = .ok onum oid amt cnt →
        (handle_tool_call gw "place_salesforce_order" args st).2
          = ⟨[], some ⟨nm, em, c.phone.getD ""⟩, some onum⟩)
    ∧ (gw.place = .createFailed ∨ (∃ e, gw.place = .raised e) →
        (handle_tool_call gw "place_salesforce_order" args st).2
          = { st with customer := some ⟨nm, em, c.phone.getD ""⟩ }) := by
  constructor
  · intro onum oid amt cnt hpl
    simp [handle_tool_call, hc, hnm, hem, hit, hpl, tool_place_order, TRbase]
  · rintro (hpl | ⟨e, hpl⟩) <;>
      simp [handle_tool_call, hc, hnm, hem, hit, hpl, tool_place_order, TRbase]

/-- Witness for the amended C1 at concrete inputs: both the success and the
failure branch, instantiated. -/
theorem C1_place_order_state_effects_witness :
    (handle_tool_call gwPlaceOk "place_salesforce_order" argsOrder stDemo).2
      = ⟨[], some ⟨"Ada Lovelace", "ada@example.com", ""⟩, some "00000103"⟩
    ∧ (handle_tool_call gwNeutral "place_salesforce_order" argsOrder stDemo).2
      = { stDemo with customer := some ⟨"Ada Lovelace", "ada@example.com", ""⟩ } := by
  constructor
  · exact (C1_place_order_state_effects gwPlaceOk argsOrder stDemo _ "Ada Lovelace"
      "ada@example.com" [⟨"01u1", 1⟩] rfl rfl rfl rfl).1 "00000103" "801A1" 45 1 rfl
  · exact (C1_place_order_state_effects gwNeutral argsOrder stDemo _ "Ada Lovelace"
      "ada@example.com" [⟨"01u1", 1⟩] rfl rfl rfl rfl).2 (Or.inl rfl)

/-- C6 fails on the code at this concrete input: a raised product search is
caught, but converted into a success result with an empty product list and no
message, not into a failure result carrying a human-readable message. -/
theorem C6_counterexample :
    (handle_tool_call gwSearchDown "search_products" argsEmpty stDemo).1.success = true
    ∧ (handle_tool_call gwSearchDown "search_products" argsEmpty stDemo).1.message = none
    ∧ (handle_tool_call gwSearchDown "search_products" argsEmpty stDemo).1.products
        = some [] := by
  exact ⟨rfl, rfl, rfl⟩

/-- C6 (amended): the dispatcher never raises (it is a total function by
construction); an unknown tool name yields a failure result naming the tool;
a gateway exception during add_to_cart, place_salesforce_order or
lookup_order_status is caught and converted into a failure result carrying a
human-readable message; a gateway exception during search_products is
swallowed instead, yielding a success result with an empty product list. -/
theorem C6_dispatcher_faults :
    (∀ gw name args st, name ≠ "search_products" → name ≠ "add_to_cart" →
        name ≠ "place_salesforce_order" → name ≠ "lookup_order_status" →
        handle_tool_call gw name args st
          = ({ TRbase with message := some ("Unknown tool: " ++ name) }, st))
    ∧ (∀ gw args st e pn, gw.addLookup pn = .error e → args.product_name = some pn →
        (handle_tool_call gw "add_to_cart" args st).1
          = { TRbase with message := some ("Error adding to cart: " ++ e) })
    ∧ (∀ gw args st e c nm em its, gw.place = .raised e → args.customer = some c →
        c.name = some nm → c.email = some em → args.items = some its →
        (handle_tool_call gw "place_salesforce_order" args st).1
          = { TRbase with message := some ("Error placing order: " ++ e) })
    ∧ (∀ gw args st e onum, gw.byNum = .error e → args.order_number = some onum →
        onum ≠ "" →
        (handle_tool_call gw "lookup_order_status" args st).1
          = { TRbase with message := some ("Error looking up order: " ++ e) })
    ∧ (∀ gw args st e, gw.search = .error e →
        (handle_tool_call gw "search_products" args st).1
          = { TRbase with success := true, products := some [], count := some 0 }) := by
  refine ⟨?_, ?_, ?_, ?_, ?_⟩
  · intro gw name args st h1 h2 h3 h4
    simp [handle_tool_call, h1, h2, h3, h4]
  · intro gw args st e pn hgw hpn
    simp [handle_tool_call, hpn, tool_add_to_cart, hgw]
  · intro gw args st e c nm em its hgw hc hnm hem hit
    simp [handle_tool_call, hc, hnm, hem, hit, hgw, tool_place_order, TRbase]
  · intro gw args st e onum hgw honum hne
    simp [handle_tool_call, tool_lookup_order, honum, pyTruthy, hne, hgw]
  · intro gw args st e hgw
    simp [handle_tool_call, tool_search_products, hgw]

/-- Witness for the amended C6 at concrete inputs: one instance per
conjunct. -/
theorem C6_dispatcher_faults_witness :
    (handle_tool_call gwNeutral "frobnicate" argsEmpty stDemo
        = ({ TRbase with message := some ("Unknown tool: " ++ "frobnicate") }, stDemo))
    ∧ ((handle_tool_call gwAddDown "add_to_cart" argsAdd stDemo).1
        = { TRbase with message := some ("Error adding to cart: " ++ "timeout") })
    ∧ ((handle_tool_call gwPlaceDown "place_salesforce_order" argsOrder stDemo).1
        = { TRbase with message := some ("Error placing order: " ++ "timeout") })
    ∧ ((handle_tool_call gwLookupDown "lookup_order_status" argsLookup stDemo).1
        = { TRbase with message := some ("Error looking up order: " ++ "timeout") })
    ∧ ((handle_tool_call gwSearchDown "search_products" argsEmpty stDemo).1
        = { TRbase with success := true, products := some [], count := some 0 }) := by
  refine ⟨?_, ?_, ?_, ?_, ?_⟩
  · exact C6_dispatcher_faults.1 gwNeutral "frobnicate" argsEmpty stDemo
      (by decide) (by decide) (by decide) (by decide)
  · exact C6_dispatcher_faults.2.1 gwAddDown argsAdd stDemo "timeout" "Bifold Wallet"
      rfl rfl
  · exact C6_dispatcher_faults.2.2.1 gwPlaceDown argsOrder stDemo "timeout" _
      "Ada Lovelace" "ada@example.com" [⟨"01u1", 1⟩] rfl rfl rfl rfl rfl
  · exact C6_dispatcher_faults.2.2.2.1 gwLookupDown argsLookup stDemo "timeout"
      "00000103" rfl rfl (by decide)
  · exact C6_dispatcher_faults.2.2.2.2 gwSearchDown argsEmpty stDemo
      "Salesforce unreachable" rfl

/-- C7: a lookup_order_status call whose gateway query finds no matching
orders returns success false with message "No orders found", whether queried
by order number, by email, or with neither argument supplied. -/
theorem C7_lookup_no_orders (gw : GwOutcome) (args : ToolArgs) (st : VState) :
    (pyTruthy args.order_number = true → gw.byNum = .ok [] →
        (handle_tool_call gw "lookup_order_status" args st).1
          = { TRbase with message := some "No orders found" })
    ∧ (pyTruthy args.order_number = false → pyTruthy args.email = true →
        gw.byEmail = .ok [] →
        (handle_tool_call gw "lookup_order_status" args st).1
          = { TRbase with message := some "No orders found" })
    ∧ (pyTruthy args.order_number = false → pyTruthy args.email = false →
        (handle_tool_call gw "lookup_order_status" args st).1
          = { TRbase with message := some "No orders found" }) := by
  refine ⟨?_, ?_, ?_⟩
  · intro ht hq
    simp [handle_tool_call, tool_lookup_order, ht, hq]
  · intro hf ht hq
    simp [handle_tool_call, tool_lookup_order, hf, ht, hq]
  · intro hf1 hf2
    simp [handle_tool_call, tool_lookup_order, hf1, hf2]

/-- Witness for C7 at concrete inputs: one instance per mode of the query. -/
theorem C7_lookup_no_orders_witness :
    ((handle_tool_call gwNeutral "lookup_order_status" argsLookup stDemo).1
        = { TRbase with message := some "No orders found" })
    ∧ ((handle_tool_call gwNeutral "lookup_order_status" argsLookupEmail stDemo).1
        = { TRbase with message := some "No orders found" })
    ∧ ((handle_tool_call gwNeutral "lookup_order_status" argsEmpty stDemo).1
        = { TRbase with message := some "No orders found" }) := by
  refine ⟨?_, ?_, ?_⟩
  · exact (C7_lookup_no_orders gwNeutral argsLookup stDemo).1 (by decide) rfl
  · exact (C7_lookup_no_orders gwNeutral argsLookupEmail stDemo).2.1 (by decide)
      (by decide) rfl
  · exact (C7_lookup_no_orders gwNeutral argsEmpty stDemo).2.2 (by decide) (by decide)

/-- The fixed fragments of non-critical upstream errors that the relay
silently drops (src/main.py lines 632-639). -/
def ignoreErrors : List String :=
  ["buffer too small", "Buffer is empty", "No speech detected",
   "Audio buffer is empty", "buffer_cleared", "response_cancelled"]

/-- Match of a needle at the head of a haystack, used to model the Python
substring test. -/
def leadMatch : List Char → List Char → Bool
  | [], _ => true
  | _ :: _, [] => false
  | a :: as, b :: bs => a == b && leadMatch as bs

/-- Scan of a haystack for an occurrence of the needle at any position. -/
def subScan : List Char → List Char → Bool
  | n, [] => leadMatch n []
  | n, c :: t => leadMatch n (c :: t) || subScan n t

/-- Python substring containment `needle in hay`. -/
def pyIn (needle hay : String) : Bool := subScan needle.toList hay.toList

theorem leadMatch_iff (n : List Char) : ∀ h : List Char,
    leadMatch n h = true ↔ n <+: h := by
  induction n with
  | nil => intro h; simp [leadMatch]
  | cons a as ih =>
    intro h
    cases h with
    | nil => simp [leadMatch]
    | cons b bs => simp [leadMatch, List.cons_prefix_cons, ih bs, And.comm]

theorem subScan_iff (n : List Char) : ∀ h : List Char,
    subScan n h = true ↔ n <:+: h := by
  intro h
  induction h with
  | nil =>
    cases n with
    | nil => simp [subScan, leadMatch]
    | cons a as => simp [subScan, leadMatch]
  | cons c t ih =>
    simp [subScan, List.infix_cons_iff, leadMatch_iff, ih]

/-- Frames the relay emits to the client over the session websocket
(src/main.py handle_voice_event).  Every frame of the source also carries an
ISO timestamp, which no claim depends on. -/
inductive Frame where
  | userSpeaking
  | userMessage (content : String)
  | assistantMessage (content : String)
  | audioDelta (audio : String)
  | toolResultFrame (products : List ProductD)
  | cartUpdated (cart : List CItem)
  | cartCleared
  | errorFrame (message : String)

/-- Commands the relay issues to the upstream client while handling one
event: send_tool_response sends a function_call_output item followed by a
response.create (src/backend/voice_client.py lines 298-321); responseCancel
stands for a response.cancel, which only RealtimeVoiceClient.handle_event
ever sends (src/backend/voice_client.py lines 369-377) — the relay path of
src/main.py never invokes it. -/
inductive UpCmd where
  | toolOutput (call_id : String)
  | responseCreate
  | responseCancel
  deriving DecidableEq, Repr

/-- Per-session relay state consulted by handle_voice_event: the voice-mode
flag (ConnectionManager.voice_mode_active, defaulting to false) and the
session cart (active_sessions[session_id]["cart"], whose current value the
cart_updated frame carries). -/
structure RelayState where
  voiceMode : Bool
  sessionCart : List CItem

/-- Upstream events as dispatched by ConnectionManager.handle_voice_event
(src/main.py lines 503-646).  toolDone carries the result the dispatcher
produced for the completed call; noise covers the event types of the ignore
list at the top of the handler as well as any type without a branch, all of
which produce no output. -/
inductive UpEvent where
  | speechStarted
  | speechStopped
  | userTranscript (transcript : String)
  | assistantTranscript (transcript : String)
  | audioDelta (delta : String)
  | responseCancelled
  | toolDone (call_id : String) (name : String) (result : ToolResult)
  | errorEvent (code : String) (message : String)
  | noise

/-- One step of ConnectionManager.handle_voice_event (src/main.py lines
503-646): the relay state after the event, the frames sent to the client in
order, and the commands sent upstream.  The speech_started branch sends the
user_speaking frame and returns — it issues no upstream command. -/
def relayStep (st : RelayState) : UpEvent → RelayState × List Frame × List UpCmd
  | .speechStarted => (st, [.userSpeaking], [])
  | .speechStopped => (st, [], [])
  | .userTranscript t => (st, [.userMessage t], [])
  | .assistantTranscript t => (st, [.assistantMessage t], [])
  | .audioDelta d => (st, if st.voiceMode then [.audioDelta d] else [], [])
  | .responseCancelled => (st, [], [])
  | .toolDone cid name r =>
    let searchFrames := if name = "search_products" ∧ r.success = true
      then [Frame.toolResultFrame (r.products.getD [])] else []
    let addFrames := if name = "add_to_cart" ∧ r.success = true
      then [Frame.cartUpdated st.sessionCart] else []
    if name = "place_salesforce_order" ∧ r.success = true then
      ({ st with sessionCart := [] }, searchFrames ++ addFrames ++ [Frame.cartCleared],
        [.toolOutput cid, .responseCreate])
    else
      (st, searchFrames ++ addFrames, [.toolOutput cid, .responseCreate])
  | .errorEvent code msg =>
    if ignoreErrors.any (fun ig => pyIn ig msg || pyIn ig code) then
      (st, [], [])
    else
      (st, [.errorFrame msg], [])
  | .noise => (st, [], [])

/-- Sequential processing of upstream events by the relay: the listener task
of src/main.py lines 488-501 awaits handle_voice_event per event, so frames
and upstream commands are concatenated strictly in event order. -/
def relayRun (st : RelayState) : List UpEvent → RelayState × List Frame × List UpCmd
  | [] => (st, [], [])
  | e :: es =>
    let s1 := relayStep st e
    let s2 := relayRun s1.1 es
    (s2.1, s1.2.1 ++ s2.2.1, s1.2.2 ++ s2.2.2)

/-- Relay state fixture. -/
def rsDemo : RelayState := ⟨true, []⟩

/-- C4 fails on the code at this concrete input: handling a speech_started
event makes the relay notify the client to stop playback, but it issues no
upstream command at all — in particular no response.cancel; the cancel on
speech start exists only in RealtimeVoiceClient.handle_event, which the
server relay path never invokes. -/
theorem C4_counterexample :
    (relayStep rsDemo .speechStarted).2.1 = [Frame.userSpeaking]
    ∧ (relayStep rsDemo .speechStarted).2.2 = [] :=
  ⟨rfl, rfl⟩

theorem relayStep_no_cancel (st : RelayState) (e : UpEvent) :
    UpCmd.responseCancel ∉ (relayStep st e).2.2 := by
  cases e with
  | toolDone cid name r =>
    simp only [relayStep]
    split <;> simp
  | errorEvent code msg =>
    simp only [relayStep]
    split <;> simp
  | audioDelta d => simp [relayStep]
  | speechStarted => simp [relayStep]
  | speechStopped => simp [relayStep]
  | userTranscript t => simp [relayStep]
  | assistantTranscript t => simp [relayStep]
  | responseCancelled => simp [relayStep]
  | noise => simp [relayStep]

/-- C4 (amended): on a speech_started upstream event the relay emits the
user_speaking notification to the client, and it appears in the frame stream
strictly before every frame of later events (audio deltas included); and the
relay never sends an upstream cancel on any event sequence — cancellation on
speech start exists only in the standalone client handler, which the relay
does not use. -/
theorem C4_user_speaking_order (st : RelayState) (es1 es2 : List UpEvent) :
    (relayRun st (es1 ++ UpEvent.speechStarted :: es2)).2.1
      = (relayRun st es1).2.1 ++ Frame.userSpeaking ::
          (relayRun (relayRun st es1).1 es2).2.1
    ∧ ∀ s es, UpCmd.responseCancel ∉ (relayRun s es).2.2 := by
  constructor
  · induction es1 generalizing st with
    | nil => simp [relayRun, relayStep]
    | cons e es ih => simp [relayRun, ih]
  · intro s es
    induction es generalizing s with
    | nil => simp [relayRun]
    | cons e es ih =>
      simp only [relayRun, List.mem_append]
      rintro (h1 | h2)
      · exact relayStep_no_cancel s e h1
      · exact ih (relayStep s e).1 h2

/-- Witness for the amended C4 at a concrete event sequence: the
user_speaking frame is emitted between the frames of the surrounding events,
and no cancel is sent. -/
theorem C4_user_speaking_order_witness :
    (relayRun rsDemo [UpEvent.audioDelta "a1", UpEvent.speechStarted,
        UpEvent.audioDelta "a2"]).2.1
      = [Frame.audioDelta "a1", Frame.userSpeaking, Frame.audioDelta "a2"]
    ∧ UpCmd.responseCancel ∉ (relayRun rsDemo [UpEvent.speechStarted]).2.2 := by
  constructor
  · have h := (C4_user_speaking_order rsDemo [UpEvent.audioDelta "a1"]
      [UpEvent.audioDelta "a2"]).1
    exact h.trans rfl
  · exact (C4_user_speaking_order rsDemo [] []).2 rsDemo [UpEvent.speechStarted]

/-- C5: an upstream response.audio.delta is forwarded to the client iff the
session voice-mode flag is true, with the audio payload unchanged; user and
assistant transcript events are forwarded regardless of the flag. -/
theorem C5_mode_gating (st : RelayState) (d t : String) :
    ((relayStep st (.audioDelta d)).2.1
        = if st.voiceMode then [Frame.audioDelta d] else [])
    ∧ (Frame.audioDelta d ∈ (relayStep st (.audioDelta d)).2.1 ↔ st.voiceMode = true)
    ∧ (relayStep st (.userTranscript t)).2.1 = [Frame.userMessage t]
    ∧ (relayStep st (.assistantTranscript t)).2.1 = [Frame.assistantMessage t] := by
  refine ⟨rfl, ?_, rfl, rfl⟩
  cases h : st.voiceMode <;> simp [relayStep, h]

/-- C9: an upstream error event is forwarded to the client as an error frame
carrying its message iff no entry of the fixed ignore list occurs as a
substring of the error message or of the error code; a matching error is
silently dropped, producing no frame at all. -/
theorem C9_error_suppression (st : RelayState) (code msg : String) :
    ((relayStep st (.errorEvent code msg)).2.1
        = if ∃ ig ∈ ignoreErrors,
              (ig.toList <:+: msg.toList ∨ ig.toList <:+: code.toList)
          then [] else [Frame.errorFrame msg])
    ∧ (Frame.errorFrame msg ∈ (relayStep st (.errorEvent code msg)).2.1
        ↔ ¬ ∃ ig ∈ ignoreErrors,
              (ig.toList <:+: msg.toList ∨ ig.toList <:+: code.toList)) := by
  have key : (ignoreErrors.any fun ig => pyIn ig msg || pyIn ig code) = true
      ↔ ∃ ig ∈ ignoreErrors,
          (ig.toList <:+: msg.toList ∨ ig.toList <:+: code.toList) := by
    simp [List.any_eq_true, pyIn, subScan_iff]
  by_cases hm : ∃ ig ∈ ignoreErrors,
      (ig.toList <:+: msg.toList ∨ ig.toList <:+: code.toList)
  · have hb := key.mpr hm
    rw [if_pos hm]
    refine ⟨by simp [relayStep, hb], ?_, ?_⟩
    · intro hmem
      simp [relayStep, hb] at hmem
    · intro hnot
      exact absurd hm hnot
  · have hb : (ignoreErrors.any fun ig => pyIn ig msg || pyIn ig code) = false := by
      cases hh : (ignoreErrors.any fun ig => pyIn ig msg || pyIn ig code)
      · rfl
      · exact absurd (key.mp hh) hm
    rw [if_neg hm]
    refine ⟨by simp [relayStep, hb], ?_, ?_⟩
    · intro _
      exact hm
    · intro _
      simp [relayStep, hb]

/-- Kind of exception a transport operation raises: ConnectionClosed (the
websockets close exception, the only one the retry branch of listen catches)
or any other exception (caught by the generic branch of listen, which
breaks).  A connect attempt that cannot establish the transport raises
OSError or a handshake error — an otherExc — while a drop of an established
stream, or a failure of the configuration send inside connect, raises
ConnectionClosed. -/
inductive ExcKind where
  | connClosed
  | otherExc
  deriving DecidableEq, Repr

/-- How one established event stream ends: dropped with ConnectionClosed,
crashed by another exception inside the handling loop, or the iterator
ending cleanly on a graceful close (after which the loop reconnects). -/
inductive StreamEnd where
  | dropped
  | crashed
  | clean
  deriving DecidableEq, Repr

/-- Behaviour of the transport over one listen-loop iteration: either the
connect attempt raises with the given kind, or the connection is established
and yields the given events before ending. -/
inductive Attempt where
  | connectFail (k : ExcKind)
  | connected (events : List String) (ending : StreamEnd)

/-- How a listen run terminates: retries exhausted (the "Max retries
reached" break, the signal the spec calls ConnectionExhausted), a generic
exception breaking the loop, or the supplied transport trace running out
with listen still waiting. -/
inductive ListenEnd where
  | exhausted
  | crashed
  | pending
  deriving DecidableEq, Repr

/-- RealtimeVoiceClient.listen (src/backend/voice_client.py lines 323-356)
over a transport behaviour trace, returning the events it yields to
handle_event and how it terminates.  retry_count is reset to 0 after every
successful connect, incremented by each ConnectionClosed, and the while
condition bounds it by max_retries = 3; any non-ConnectionClosed exception
falls into the generic except branch, which breaks immediately. -/
def listenRun (rc : Nat) : List Attempt → List String × ListenEnd
  | [] => ([], .pending)
  | .connectFail .connClosed :: rest =>
    if rc + 1 < 3 then listenRun (rc + 1) rest else ([], .exhausted)
  | .connectFail .otherExc :: _ => ([], .crashed)
  | .connected evs .dropped :: rest =>
    let out := listenRun 1 rest
    (evs ++ out.1, out.2)
  | .connected evs .crashed :: _ => (evs, .crashed)
  | .connected evs .clean :: rest =>
    let out := listenRun 0 rest
    (evs ++ out.1, out.2)

/-- Back-off delay in seconds before retry number rc (src/backend/
voice_client.py line 345): exponential and capped at 10. -/
def backoffDelay (rc : Nat) : Nat := min (2 ^ rc) 10

/-- C3 fails on the code at this concrete input: a transport whose connect
attempts raise an ordinary connection error (websockets.connect raises
OSError or a handshake error when the transport cannot be established, not
ConnectionClosed) makes listen break after the first attempt: with two such
failures before a working connection the post-reconnect events are never
yielded, and with persistent failures the run ends in the generic-crash
branch after one attempt instead of reporting the max-retries
(ConnectionExhausted) signal after three. -/
theorem C3_counterexample :
    listenRun 0 [.connectFail .otherExc, .connectFail .otherExc,
        .connected ["post-reconnect-event"] .clean]
      = ([], .crashed)
    ∧ listenRun 0 (List.replicate 5 (.connectFail .otherExc)) = ([], .crashed) :=
  ⟨rfl, rfl⟩

/-- C3 (amended): the bounded retry of listen applies to failures raising
ConnectionClosed (a dropped established stream, or a connect attempt failing
during its configuration send): with two such failures followed by a working
connection, listen yields exactly the post-reconnect event stream without
caller intervention; three consecutive such failures terminate listen with
the max-retries signal regardless of later transport behaviour, after
back-off delays that are exponential and capped at 10 seconds; a connect
attempt raising any other exception ends listen immediately instead. -/
theorem C3_listen_reconnection :
    (∀ evs ending,
        (listenRun 0 [.connectFail .connClosed, .connectFail .connClosed,
            .connected evs ending]).1 = evs)
    ∧ (∀ rest, listenRun 0 (.connectFail .connClosed :: .connectFail .connClosed ::
        .connectFail .connClosed :: rest) = ([], .exhausted))
    ∧ (∀ rest, listenRun 0 (.connectFail .otherExc :: rest) = ([], .crashed))
    ∧ (∀ rc, backoffDelay rc ≤ 10)
    ∧ backoffDelay 1 = 2 ∧ backoffDelay 2 = 4 := by
  refine ⟨?_, ?_, ?_, ?_, rfl, rfl⟩
  · intro evs ending
    cases ending <;> simp [listenRun]
  · intro rest
    rfl
  · intro rest
    rfl
  · intro rc
    exact Nat.min_le_right _ _

/-- The three per-session maps of ConnectionManager that disconnect touches
(src/main.py lines 429-432): client websockets, upstream voice clients and
voice-mode flags, each keyed by session id.  Map values are opaque to the
claim and modelled as numbers and booleans. -/
structure ConnMgr where
  active_connections : List (String × Nat)
  voice_clients : List (String × Nat)
  voice_mode_active : List (String × Bool)
  deriving DecidableEq, Repr

/-- Python `if sid in d: del d[sid]`: dict keys are unique, so deleting the
key removes its one binding, and an absent key leaves the dict unchanged. -/
def pyDel {β : Type} (d : List (String × β)) (sid : String) : List (String × β) :=
  d.filter fun p => p.1 != sid

/-- ConnectionManager.disconnect (src/main.py lines 473-482): remove the
session id from each of the three maps; the upstream client close on the way
does not touch the maps. -/
def disconnect (mgr : ConnMgr) (sid : String) : ConnMgr :=
  ⟨pyDel mgr.active_connections sid, pyDel mgr.voice_clients sid,
    pyDel mgr.voice_mode_active sid⟩

/-- A session id is known when any of the three maps has it as a key. -/
def knownSession (mgr : ConnMgr) (sid : String) : Prop :=
  sid ∈ mgr.active_connections.map Prod.fst
  ∨ sid ∈ mgr.voice_clients.map Prod.fst
  ∨ sid ∈ mgr.voice_mode_active.map Prod.fst

theorem pyDel_absent {β : Type} (d : List (String × β)) (sid : String)
    (h : sid ∉ d.map Prod.fst) : pyDel d sid = d := by
  apply List.filter_eq_self.mpr
  intro p hp
  have hne : p.1 ≠ sid := by
    intro he
    exact h (he ▸ List.mem_map_of_mem Prod.fst hp)
  simpa using hne

theorem pyDel_pyDel {β : Type} (d : List (String × β)) (sid : String) :
    pyDel (pyDel d sid) sid = pyDel d sid := by
  apply List.filter_eq_self.mpr
  intro p hp
  have hmem : p ∈ List.filter (fun q => q.1 != sid) d := hp
  have hpred := List.of_mem_filter hmem
  simpa using hpred

/-- C8: session teardown is idempotent: disconnecting an unknown or
already-disconnected session id leaves all three maps unchanged (the model
is a total function, so nothing is raised), and disconnecting twice has the
same effect as disconnecting once. -/
theorem C8_disconnect_idempotent (mgr : ConnMgr) (sid : String) :
    (¬ knownSession mgr sid → disconnect mgr sid = mgr)
    ∧ disconnect (disconnect mgr sid) sid = disconnect mgr sid := by
  constructor
  · intro h
    rw [knownSession, not_or, not_or] at h
    obtain ⟨h1, h2, h3⟩ := h
    cases mgr
    simp only [disconnect]
    rw [pyDel_absent _ _ h1, pyDel_absent _ _ h2, pyDel_absent _ _ h3]
  · simp [disconnect, pyDel_pyDel]

/-- Registry fixture with one live session. -/
def mgrDemo : ConnMgr := ⟨[("s1", 1)], [("s1", 2)], [("s1", true)]⟩

/-- Witness for C8 at concrete inputs: closing an unknown session is a
no-op, and closing a live session twice equals closing it once. -/
theorem C8_disconnect_idempotent_witness :
    disconnect mgrDemo "s2" = mgrDemo
    ∧ disconnect (disconnect mgrDemo "s1") "s1" = disconnect mgrDemo "s1" := by
  constructor
  · exact (C8_disconnect_idempotent mgrDemo "s2").1
      (by simp [knownSession, mgrDemo])
  · exact (C8_disconnect_idempotent mgrDemo "s1").2

/-- Gateway lookup fixture resolving every product name to the wallet. -/
def gwWallet : String → Except String (Option ProductD) :=
  fun _ => .ok (some prodWallet)

/-- Witness for C2 at concrete inputs: the invariant holds after adding to an
empty cart, and the double addition yields the single line with quantity 2. -/
theorem C2_add_to_cart_nodup_witness :
    IdsNodup (tool_add_to_cart gwWallet "Bifold Wallet" 1 []).2
    ∧ (tool_add_to_cart gwWallet "Bifold Wallet" 1
        (tool_add_to_cart gwWallet "Bifold Wallet" 1 []).2).2
      = [CItem.dictLine [("product", productToPy prodWallet),
          ("quantity", PyVal.num 2)]] := by
  constructor
  · exact C2_add_to_cart_nodup.1 gwWallet "Bifold Wallet" 1 []
      (by simp [IdsNodup, cartIds])
  · exact C2_add_to_cart_nodup.2 gwWallet "Bifold Wallet" prodWallet rfl

/-- Witness for C5 at concrete inputs. -/
theorem C5_mode_gating_witness :
    (Frame.audioDelta "aa" ∈ (relayStep rsDemo (.audioDelta "aa")).2.1
        ↔ rsDemo.voiceMode = true)
    ∧ (relayStep rsDemo (.userTranscript "hi")).2.1 = [Frame.userMessage "hi"] :=
  ⟨(C5_mode_gating rsDemo "aa" "hi").2.1, (C5_mode_gating rsDemo "aa" "hi").2.2.1⟩

/-- Witness for C9 at concrete inputs: a message containing an ignored
fragment, compared against the decidable ignore condition. -/
theorem C9_error_suppression_witness :
    (relayStep rsDemo (.errorEvent "code_x" "Audio buffer is empty")).2.1
      = if ∃ ig ∈ ignoreErrors,
            (ig.toList <:+: ("Audio buffer is empty" : String).toList
              ∨ ig.toList <:+: ("code_x" : String).toList)
        then [] else [Frame.errorFrame "Audio buffer is empty"] :=
  (C9_error_suppression rsDemo "code_x" "Audio buffer is empty").1

end EStore
